import Mathlib

/-!
Shallow embedding of the SafeStreets backend (src/app.py) for verification of
the specification's claims.

Conventions:
* Python floats are modelled as rationals (`ℚ`); the claims under study concern
  exact values (0, 100, bounds, ordering), not floating-point rounding.
* The database is modelled explicitly: each handler takes the relevant table
  contents as a value and returns the updated contents together with the JSON
  response it would serialize.  A `none`/`Except.error` input models the
  connection, query or constraint failures that psycopg2 surfaces as
  exceptions.
* External collaborators (werkzeug's check_password_hash / the hash function,
  numpy's cosine) are abstracted as function or value parameters, exactly at
  the call boundary where app.py invokes them.
-/

/-- One row of the `crime_logs` table (schema at app.py lines 308–319; the
columns read by `get_nearby_crime_data` at line 132). -/
structure CrimeRecord where
  latitude : ℚ
  longitude : ℚ
  severity_score : ℚ
  is_safe_route : Bool
  crime_type : String
deriving DecidableEq

/-- The dictionary returned by `get_nearby_crime_data` (app.py lines 150–155). -/
structure CrimeSummary where
  incident_count : ℕ
  avg_severity_score : ℚ
  perc_safe_incidents : ℚ
  crime_type_codes_nearby : List String
deriving DecidableEq

/-- The default summary returned on any database failure
(app.py lines 119, 121 and 158). -/
def neutral_summary : CrimeSummary :=
  { incident_count := 0
    avg_severity_score := 0
    perc_safe_incidents := 100
    crime_type_codes_nearby := [] }

/-- The WHERE clause of the crime query (app.py line 134):
`latitude BETWEEN min_lat AND max_lat AND longitude BETWEEN min_lon AND max_lon`. -/
def in_bounding_box (min_lat max_lat min_lon max_lon : ℚ) (r : CrimeRecord) : Bool :=
  decide (min_lat ≤ r.latitude ∧ r.latitude ≤ max_lat ∧
    min_lon ≤ r.longitude ∧ r.longitude ≤ max_lon)

/-- The bounding-box query of `get_nearby_crime_data` (app.py lines 123–138).
`coslat` stands for the value `np.cos(np.radians(lat))` computed at line 124:
the cosine is an external numeric routine, abstracted as a parameter.
`LIMIT 200` becomes `List.take 200` after the filter. -/
def crime_query (lat lon radius_km coslat : ℚ) (logs : List CrimeRecord) :
    List CrimeRecord :=
  let lat_degree_per_km : ℚ := 1 / 111
  let lon_degree_per_km : ℚ := 1 / (111 * coslat)
  let lat_delta := radius_km * lat_degree_per_km
  let lon_delta := radius_km * lon_degree_per_km
  (logs.filter
    (in_bounding_box (lat - lat_delta) (lat + lat_delta)
      (lon - lon_delta) (lon + lon_delta))).take 200

/-- The aggregation loop of `get_nearby_crime_data` (app.py lines 139–155):
count, summed severity, count of rows flagged safe, distinct crime types
(`list(set(...))`, order irrelevant), and the two guarded divisions. -/
def summarize (records : List CrimeRecord) : CrimeSummary :=
  let incident_count := records.length
  let total_severity := (records.map (fun r => r.severity_score)).sum
  let safe_route_incidents := (records.filter (fun r => r.is_safe_route)).length
  let crime_type_codes_nearby := (records.map (fun r => r.crime_type)).dedup
  { incident_count := incident_count
    avg_severity_score :=
      if incident_count > 0 then total_severity / incident_count else 0
    perc_safe_incidents :=
      if incident_count > 0 then (safe_route_incidents : ℚ) / incident_count * 100 else 0
    crime_type_codes_nearby := crime_type_codes_nearby }

/-- `get_nearby_crime_data` (app.py lines 115–161).  The `db` argument models
the database: `none` is any failure (pool not initialized at line 119, no
connection at line 121, or an exception caught at line 156); `some logs` is a
successful query over table contents `logs`. -/
def get_nearby_crime_data (lat lon radius_km coslat : ℚ)
    (db : Option (List CrimeRecord)) : CrimeSummary :=
  match db with
  | none => neutral_summary
  | some logs => summarize (crime_query lat lon radius_km coslat logs)

/-- Round half to even on rationals: the tie-breaking rule of Python's builtin
`round`.  All branches return `⌊q⌋` or `⌊q⌋ + 1`. -/
def round_half_even (q : ℚ) : ℤ :=
  let f := ⌊q⌋
  let r := q - f
  if r < 1 / 2 then f
  else if 1 / 2 < r then f + 1
  else if f % 2 = 0 then f else f + 1

/-- Python's `round(x, 2)` (app.py line 789). -/
def round2 (q : ℚ) : ℚ := (round_half_even (q * 100) : ℚ) / 100

/-- The safetyScore field computed at app.py line 789:
`round(min(10.0, max(0.0, final_safety_score)), 2)`. -/
def reported_safety_score (final_safety_score : ℚ) : ℚ :=
  round2 (min 10 (max 0 final_safety_score))

/-- The incident-penalty step (app.py lines 776–781): start from the ML score,
and when the aggregator reports any incidents subtract 1.0 and append the
explanatory note carrying the incident count. -/
def apply_incident_penalty (base : ℚ) (details : String) (crime : CrimeSummary) :
    ℚ × String :=
  if crime.incident_count > 0 then
    (base - 1,
      details ++ " " ++ toString crime.incident_count ++ " incidents recorded nearby.")
  else (base, details)

/-- One element of the `routes_to_return` list (app.py lines 742–791). -/
structure ScoredRoute where
  name : String
  duration : String
  distance : String
  color : String
  coordinates : List (ℚ × ℚ)
  safetyScore : ℚ
  safetyDetails : String
deriving DecidableEq

/-- The per-route body of `get_routes_with_safety` (app.py lines 742–791),
after the provider call: `idx` is the enumeration index, `duration`,
`distance` and `coords` come from the decoded provider route, and
`ml_predicted_score` is the model's output or the uniform fallback (lines
765–773) — both opaque numeric inputs here.  `crime` is the Incident
Aggregator's summary for the representative point. -/
def build_scored_route (preference : String) (idx : ℕ) (duration distance : String)
    (coords : List (ℚ × ℚ)) (ml_predicted_score : ℚ) (crime : CrimeSummary) :
    ScoredRoute :=
  let route_name :=
    if preference = "safest" ∧ idx = 0 then "Safest Path"
    else "Route " ++ toString (idx + 1)
  let penalized := apply_incident_penalty ml_predicted_score
    (route_name ++ ": Safety score derived from ML model.") crime
  { name := route_name
    duration := duration
    distance := distance
    color := if preference = "fastest" then "blue" else "green"
    coordinates := coords
    safetyScore := reported_safety_score penalized.1
    safetyDetails := penalized.2 }

/-- The ordering relation of `routes_to_return.sort(key=lambda x:
x['safetyScore'], reverse=True)` (app.py line 806): earlier routes have
scores at least as large. -/
def score_ge (a b : ScoredRoute) : Prop := b.safetyScore ≤ a.safetyScore

instance : DecidableRel score_ge :=
  fun a b => inferInstanceAs (Decidable (b.safetyScore ≤ a.safetyScore))

instance : IsTotal ScoredRoute score_ge :=
  ⟨fun a b => le_total b.safetyScore a.safetyScore⟩

instance : IsTrans ScoredRoute score_ge :=
  ⟨fun _ _ _ hab hbc => le_trans hbc hab⟩

/-- The final ordering step of `get_routes_with_safety` (app.py lines
805–806): a stable sort by descending safetyScore when the preference is
"safest", the provider order otherwise. -/
def order_routes (preference : String) (routes : List ScoredRoute) :
    List ScoredRoute :=
  if preference = "safest" then routes.insertionSort score_ge else routes

/-- One row of the `users` table (schema at app.py lines 295–306). -/
structure UserRow where
  user_id : ℕ
  name : String
  email : String
  password_hash : String
  phone : String
  gender : String
deriving DecidableEq

/-- The JSON body and HTTP code serialized by the login handler
(app.py lines 700–703). -/
structure LoginResponse where
  status : String
  message : String
  http_code : ℕ
  user_id : Option ℕ
  username : Option String
  email : Option String
deriving DecidableEq

/-- The generic failure response of app.py line 703. -/
def invalid_credentials : LoginResponse :=
  { status := "error", message := "Invalid email or password.", http_code := 401
    user_id := none, username := none, email := none }

/-- The success response of app.py line 701 for the matched row `u`. -/
def login_success (u : UserRow) : LoginResponse :=
  { status := "success", message := "Login successful!", http_code := 200
    user_id := some u.user_id, username := some u.name, email := some u.email }

/-- The credential-checking core of `login_user` (app.py lines 694–703):
`SELECT ... WHERE email = %s` then `fetchone()` is `List.find?`;
werkzeug's `check_password_hash` is the parameter `check_hash`. -/
def login_user (check_hash : String → String → Bool) (users : List UserRow)
    (email password : String) : LoginResponse :=
  match users.find? (fun u => u.email == email) with
  | some u =>
    if check_hash u.password_hash password then login_success u
    else invalid_credentials
  | none => invalid_credentials

/-- The registration request body (app.py lines 632–637); `data.get` yields
`none` for a missing field. -/
structure RegisterRequest where
  name : Option String
  email : Option String
  password : Option String
  phone : Option String
  gender : Option String
deriving DecidableEq

/-- The JSON body and HTTP code serialized by the registration handler. -/
structure RegisterResponse where
  status : String
  message : String
  http_code : ℕ
  user_id : Option ℕ
deriving DecidableEq

/-- Python truthiness of an optional string, as tested by
`all([name, email, password, phone, gender])` (app.py line 639):
`None` and the empty string are falsy. -/
def truthy : Option String → Bool
  | none => false
  | some s => !(s == "")

/-- Helper for Python's substring operator: does the second list start with
the first? -/
def starts_with_chars : List Char → List Char → Bool
  | [], _ => true
  | _ :: _, [] => false
  | a :: as, b :: bs => a == b && starts_with_chars as bs

/-- Python's substring test `needle in haystack`, on character lists. -/
def contains_chars (needle : List Char) : List Char → Bool
  | [] => needle.isEmpty
  | b :: rest => starts_with_chars needle (b :: rest) || contains_chars needle rest

/-- Text of the psycopg2 IntegrityError raised by a duplicate email: Postgres
names the violated constraint `users_email_key` (the UNIQUE column of the
schema at app.py line 299), which line 664 searches for in `str(e)`. -/
def duplicate_email_error : String :=
  "duplicate key value violates unique constraint \"users_email_key\""

/-- The INSERT of app.py lines 656–659 against the `users` schema: a new row
with the next serial id, or an IntegrityError carrying the Postgres message
when the UNIQUE constraint on email is violated. -/
def insert_user (users : List UserRow)
    (name email password_hash phone gender : String) :
    Except String (List UserRow × ℕ) :=
  if users.any (fun u => u.email == email) then
    Except.error duplicate_email_error
  else
    let uid := users.length + 1
    Except.ok (users ++ [⟨uid, name, email, password_hash, phone, gender⟩], uid)

/-- The register handler `register_user` (app.py lines 630-674): field
validation (line 639), phone validation (line 642), hash of the credential
(line 650, the hash function is an external parameter), then the INSERT with
the IntegrityError mapping of lines 662-667 (`"users_email_key" in str(e)`
is an infix test on the error text). -/
def register_user (hash : String → String) (users : List UserRow)
    (req : RegisterRequest) : List UserRow × RegisterResponse :=
  if !(truthy req.name && truthy req.email && truthy req.password &&
      truthy req.phone && truthy req.gender) then
    (users, ⟨"error", "All fields are required.", 400, none⟩)
  else
    let phone := req.phone.getD ""
    if !(phone.length == 10 && phone.toList.all Char.isDigit) then
      (users, ⟨"error", "Phone number must be exactly 10 digits.", 400, none⟩)
    else
      match insert_user users (req.name.getD "") (req.email.getD "")
          (hash (req.password.getD "")) phone (req.gender.getD "") with
      | Except.ok (users2, uid) =>
        (users2, ⟨"success", "User registered successfully!", 201, some uid⟩)
      | Except.error e =>
        if contains_chars "users_email_key".toList e.toList then
          (users, ⟨"error", "Email already registered.", 409, none⟩)
        else
          (users, ⟨"error", "Database integrity error.", 500, none⟩)

/-- The conjunction of the two validation guards of `register_user`
(app.py lines 639 and 642). -/
def valid_register_request (req : RegisterRequest) : Bool :=
  (truthy req.name && truthy req.email && truthy req.password &&
    truthy req.phone && truthy req.gender) &&
  ((req.phone.getD "").length == 10 && (req.phone.getD "").toList.all Char.isDigit)

/-- One row of the `route_history` table (schema at app.py lines 333–345);
the JSON route payload is kept opaque as its serialized text. -/
structure RouteRow where
  route_id : ℕ
  user_id : ℕ
  source_lat : ℚ
  source_lng : ℚ
  destination_lat : ℚ
  destination_lng : ℚ
  selected_route : String
deriving DecidableEq

/-- One row of the `feedback` table (schema at app.py lines 321–331); rating
and comment are nullable columns. -/
structure FeedbackRow where
  feedback_id : ℕ
  user_id : ℕ
  segment_id : Int
  rating : Option Int
  comment : Option String
deriving DecidableEq

/-- The database schema state: each of the four tables is either absent
(`none`) or present with its rows. -/
structure Schema where
  users : Option (List UserRow)
  crime_logs : Option (List CrimeRecord)
  feedback : Option (List FeedbackRow)
  route_history : Option (List RouteRow)
deriving DecidableEq

/-- The schema state after `create_tables`: all four tables present & empty. -/
def fresh_schema : Schema :=
  { users := some [], crime_logs := some []
    feedback := some [], route_history := some [] }

/-- The JSON body and HTTP code of the schema-bootstrap endpoint. -/
structure StatusResponse where
  status : String
  message : String
  http_code : ℕ
deriving DecidableEq

/-- The `create_tables` endpoint (app.py lines 271–356).  It first executes
`DROP TABLE IF EXISTS` for route_history, feedback, crime_logs and users
(lines 289–292), then `CREATE TABLE` for users, crime_logs, feedback and
route_history (lines 295–345), and commits: whatever the input state, the
committed state is the fresh empty schema.  The drops make every CREATE run
against an absent table, so no step fails. -/
def create_tables (db : Schema) : Schema × StatusResponse :=
  let db1 := { db with route_history := none }
  let db2 := { db1 with feedback := none }
  let db3 := { db2 with crime_logs := none }
  let db4 := { db3 with users := none }
  let db5 := { db4 with users := some [] }
  let db6 := { db5 with crime_logs := some [] }
  let db7 := { db6 with feedback := some [] }
  let db8 := { db7 with route_history := some [] }
  (db8, ⟨"success", "Database tables created or already exist.", 200⟩)

/-- Database-level errors that the feedback INSERT can raise. -/
inductive DbError
  | foreignKeyViolation (msg : String)
  | checkViolation (msg : String)
deriving DecidableEq

/-- The CHECK constraint `rating >= 1 AND rating <= 5` of the feedback schema
(app.py line 326); a NULL rating passes the check. -/
def rating_check (rating : Option Int) : Bool :=
  match rating with
  | none => true
  | some k => decide (1 ≤ k) && decide (k ≤ 5)

/-- The INSERT of app.py lines 528–531 against the `feedback` schema:
Postgres validates the CHECK constraint and then the FOREIGN KEY on user_id
(app.py line 329) before the row is inserted. -/
def insert_feedback (users : List UserRow) (feedback : List FeedbackRow)
    (user_id : ℕ) (segment_id : Int) (rating : Option Int)
    (comment : Option String) : Except DbError (List FeedbackRow × ℕ) :=
  if !(rating_check rating) then
    Except.error (DbError.checkViolation
      "new row for relation \"feedback\" violates check constraint \"feedback_rating_check\"")
  else if !(users.any (fun u => u.user_id == user_id)) then
    Except.error (DbError.foreignKeyViolation
      "insert or update on table \"feedback\" violates foreign key constraint \"feedback_user_id_fkey\"")
  else
    let fid := feedback.length + 1
    Except.ok (feedback ++ [⟨fid, user_id, segment_id, rating, comment⟩], fid)

/-- The JSON body and HTTP code serialized by the feedback handler. -/
structure FeedbackResponse where
  status : String
  message : Option String
  http_code : ℕ
  feedback_id : Option ℕ
deriving DecidableEq

/-- The `save_feedback` handler (app.py lines 510–545): on success the row is
committed (201); a ForeignKeyViolation is rolled back and mapped to 400 with
the fixed message (lines 535–538); any other database error is rolled back
and mapped to the generic 500 with the error's text (lines 539–542). -/
def save_feedback (users : List UserRow) (feedback : List FeedbackRow)
    (user_id : ℕ) (segment_id : Int) (rating : Option Int)
    (comment : Option String) : List FeedbackRow × FeedbackResponse :=
  match insert_feedback users feedback user_id segment_id rating comment with
  | Except.ok (fb2, fid) => (fb2, ⟨"success", none, 201, some fid⟩)
  | Except.error (DbError.foreignKeyViolation _) =>
    (feedback, ⟨"error", some "User or route ID does not exist.", 400, none⟩)
  | Except.error (DbError.checkViolation m) =>
    (feedback, ⟨"error", some m, 500, none⟩)

/-! ### Claim theorems -/

/-- Claim C2: the Incident Aggregator is total (a function on all inputs, so
no exception reaches the caller) and on any database failure — pool not
initialized, no connection, or a raised query error — it returns exactly the
neutral summary: 0 incidents, average severity 0, percentage-safe 100, empty
incident-type list. -/
theorem aggregator_failure_neutral (lat lon radius_km coslat : ℚ) :
    get_nearby_crime_data lat lon radius_km coslat none = neutral_summary ∧
    (get_nearby_crime_data lat lon radius_km coslat none).incident_count = 0 ∧
    (get_nearby_crime_data lat lon radius_km coslat none).avg_severity_score = 0 ∧
    (get_nearby_crime_data lat lon radius_km coslat none).perc_safe_incidents = 100 ∧
    (get_nearby_crime_data lat lon radius_km coslat none).crime_type_codes_nearby = [] :=
  ⟨rfl, rfl, rfl, rfl, rfl⟩

/-- Claim C1 (amended): the create-tables endpoint is not create-if-absent; it
drops all four tables and recreates them empty, so whatever the input state
the committed state is the fresh empty schema.  It is idempotent only in the
sense that running it twice has the same effect as running it once. -/
theorem create_tables_resets_schema (db : Schema) :
    (create_tables db).1 = fresh_schema ∧
    create_tables (create_tables db).1 = create_tables db :=
  ⟨rfl, rfl⟩

/-- A database state in which all four tables exist and hold one row each. -/
def demo_schema : Schema :=
  { users := some [⟨1, "Alice", "alice@example.com", "hash1", "0123456789", "F"⟩]
    crime_logs := some [⟨0, 0, 3, true, "Theft"⟩]
    feedback := some [⟨1, 1, 7, some 4, none⟩]
    route_history := some [⟨1, 1, 0, 0, 1, 1, "payload"⟩] }

/-- Claim C1 counterexample: on a state where the four tables exist with
rows, the endpoint does not leave them unchanged — the users row is gone. -/
theorem create_tables_drops_rows :
    demo_schema.users = some [⟨1, "Alice", "alice@example.com", "hash1", "0123456789", "F"⟩] ∧
    (create_tables demo_schema).1.users = some [] ∧
    (create_tables demo_schema).1 ≠ demo_schema := by
  refine ⟨rfl, rfl, ?_⟩
  decide

/-- Claim C4 counterexample: the summary produced on a database failure has
incident count 0 but percentage-safe 100, not 0. -/
theorem failure_summary_perc_not_zero :
    (get_nearby_crime_data 0 0 (1 / 2) 1 none).incident_count = 0 ∧
    (get_nearby_crime_data 0 0 (1 / 2) 1 none).perc_safe_incidents = 100 ∧
    (get_nearby_crime_data 0 0 (1 / 2) 1 none).perc_safe_incidents ≠ 0 := by
  refine ⟨rfl, rfl, ?_⟩
  norm_num [get_nearby_crime_data, neutral_summary]

/-- Helper: a summary with zero incidents has both guarded statistics 0. -/
theorem summarize_zero (records : List CrimeRecord)
    (h : (summarize records).incident_count = 0) :
    (summarize records).avg_severity_score = 0 ∧
    (summarize records).perc_safe_incidents = 0 := by
  simp only [summarize] at h ⊢
  simp [h]

/-- Claim C4 (amended): for every summary produced by a successful query whose
incident count is 0, the average severity and the percentage-safe are both
exactly 0 (exact rationals in the model, so no NaN can arise); the summary
produced on a database failure instead carries percentage-safe 100. -/
theorem zero_incident_stats (lat lon radius_km coslat : ℚ)
    (logs : List CrimeRecord)
    (h : (get_nearby_crime_data lat lon radius_km coslat (some logs)).incident_count = 0) :
    (get_nearby_crime_data lat lon radius_km coslat (some logs)).avg_severity_score = 0 ∧
    (get_nearby_crime_data lat lon radius_km coslat (some logs)).perc_safe_incidents = 0 :=
  summarize_zero _ h

/-- Witness for `zero_incident_stats` at a concrete empty table. -/
theorem zero_incident_stats_witness :
    (get_nearby_crime_data 0 0 (1 / 2) 1 (some [])).avg_severity_score = 0 ∧
    (get_nearby_crime_data 0 0 (1 / 2) 1 (some [])).perc_safe_incidents = 0 :=
  zero_incident_stats 0 0 (1 / 2) 1 [] rfl

/-- Rounding half-to-even never goes below 0 on a nonnegative input. -/
theorem round_half_even_nonneg {q : ℚ} (h : 0 ≤ q) : 0 ≤ round_half_even q := by
  have hf : 0 ≤ ⌊q⌋ := Int.floor_nonneg.mpr h
  simp only [round_half_even]
  split_ifs <;> omega

/-- Rounding half-to-even never exceeds an integer upper bound of the input. -/
theorem round_half_even_le_of_le {q : ℚ} {n : ℤ} (h : q ≤ (n : ℚ)) :
    round_half_even q ≤ n := by
  have hfn : ⌊q⌋ ≤ n := by
    have h2 := Int.floor_le_floor h
    simpa using h2
  have hfl : (⌊q⌋ : ℚ) ≤ q := Int.floor_le q
  simp only [round_half_even]
  split_ifs with h1 h2 h3
  · exact hfn
  · have hq : (⌊q⌋ : ℚ) < (n : ℚ) := by linarith
    have hlt : ⌊q⌋ < n := by exact_mod_cast hq
    omega
  · exact hfn
  · have hhalf : (1 : ℚ) / 2 ≤ q - ⌊q⌋ := not_lt.mp h1
    have hq : (⌊q⌋ : ℚ) < (n : ℚ) := by linarith
    have hlt : ⌊q⌋ < n := by exact_mod_cast hq
    omega

/-- The reported safety score is always within [0, 10]. -/
theorem reported_safety_score_bounds (s : ℚ) :
    0 ≤ reported_safety_score s ∧ reported_safety_score s ≤ 10 := by
  have h0 : (0 : ℚ) ≤ min 10 (max 0 s) := le_min (by norm_num) (le_max_left 0 s)
  have h10 : min 10 (max 0 s) ≤ 10 := min_le_left _ _
  have c0 : (0 : ℚ) ≤ min 10 (max 0 s) * 100 := mul_nonneg h0 (by norm_num)
  have c10 : min 10 (max 0 s) * 100 ≤ ((1000 : ℤ) : ℚ) := by push_cast; linarith
  have r0 : 0 ≤ round_half_even (min 10 (max 0 s) * 100) := round_half_even_nonneg c0
  have r10 : round_half_even (min 10 (max 0 s) * 100) ≤ 1000 := round_half_even_le_of_le c10
  constructor
  · unfold reported_safety_score round2
    have : (0 : ℚ) ≤ (round_half_even (min 10 (max 0 s) * 100) : ℚ) := by exact_mod_cast r0
    positivity
  · unfold reported_safety_score round2
    rw [div_le_iff₀ (by norm_num : (0 : ℚ) < 100)]
    have : ((round_half_even (min 10 (max 0 s) * 100)) : ℚ) ≤ 1000 := by exact_mod_cast r10
    linarith

/-- Claim C3: for every route built by the scorer — whatever base model output
or random fallback, and whether or not the incident penalty was applied — the
reported safety score lies in [0, 10], and the reported score is by
construction the clamped value rounded to two decimal places. -/
theorem final_score_clamped (preference : String) (idx : ℕ)
    (duration distance : String) (coords : List (ℚ × ℚ))
    (ml_predicted_score : ℚ) (crime : CrimeSummary) :
    0 ≤ (build_scored_route preference idx duration distance coords
      ml_predicted_score crime).safetyScore ∧
    (build_scored_route preference idx duration distance coords
      ml_predicted_score crime).safetyScore ≤ 10 ∧
    ∀ s : ℚ, reported_safety_score s = round2 (min 10 (max 0 s)) :=
  ⟨(reported_safety_score_bounds _).1, (reported_safety_score_bounds _).2,
    fun _ => rfl⟩

/-- Claim C9: per candidate route, if the aggregator's summary reports a
positive incident count then exactly 1.0 is subtracted from the base model
score and the explanatory note carrying the incident count is appended to the
explanation string; on a zero count the step changes nothing. -/
theorem incident_penalty_step (base : ℚ) (details : String) (crime : CrimeSummary) :
    (crime.incident_count > 0 →
      apply_incident_penalty base details crime =
        (base - 1,
          details ++ " " ++ toString crime.incident_count ++
            " incidents recorded nearby.")) ∧
    (crime.incident_count = 0 →
      apply_incident_penalty base details crime = (base, details)) := by
  constructor <;> intro h <;> simp [apply_incident_penalty, h]

/-- Witness for `incident_penalty_step` at counts 3 and 0. -/
theorem incident_penalty_step_witness :
    apply_incident_penalty 5 "Route 1: Safety score derived from ML model."
        ⟨3, 2, 50, ["Theft"]⟩ =
      (5 - 1, "Route 1: Safety score derived from ML model." ++ " " ++
        toString (3 : ℕ) ++ " incidents recorded nearby.") ∧
    apply_incident_penalty 5 "Route 1: Safety score derived from ML model."
        ⟨0, 0, 0, []⟩ =
      (5, "Route 1: Safety score derived from ML model.") :=
  ⟨(incident_penalty_step 5 "Route 1: Safety score derived from ML model."
      ⟨3, 2, 50, ["Theft"]⟩).1 (by decide),
    (incident_penalty_step 5 "Route 1: Safety score derived from ML model."
      ⟨0, 0, 0, []⟩).2 rfl⟩

/-- Claim C5: with preference "safest" the returned list is a permutation of
the scored routes with non-increasing safetyScore values; with any other
preference the provider order is returned unchanged. -/
theorem safest_ordering (preference : String) (routes : List ScoredRoute) :
    (preference = "safest" →
      List.Perm (order_routes preference routes) routes ∧
      List.Pairwise (fun a b => b.safetyScore ≤ a.safetyScore)
        (order_routes preference routes)) ∧
    (preference ≠ "safest" → order_routes preference routes = routes) := by
  constructor
  · intro h
    subst h
    simp only [order_routes, if_pos]
    exact ⟨List.perm_insertionSort score_ge routes,
      List.sorted_insertionSort score_ge routes⟩
  · intro h
    simp [order_routes, h]

/-- Two concrete scored routes whose provider order is not score-descending. -/
def demo_routes : List ScoredRoute :=
  [⟨"Route 1", "10 mins", "5 km", "green", [], 3, "d1"⟩,
   ⟨"Route 2", "12 mins", "6 km", "green", [], 7, "d2"⟩]

/-- Witness for `safest_ordering` on `demo_routes`. -/
theorem safest_ordering_witness :
    (List.Perm (order_routes "safest" demo_routes) demo_routes ∧
      List.Pairwise (fun a b => b.safetyScore ≤ a.safetyScore)
        (order_routes "safest" demo_routes)) ∧
    order_routes "fastest" demo_routes = demo_routes :=
  ⟨(safest_ordering "safest" demo_routes).1 rfl,
    (safest_ordering "fastest" demo_routes).2 (by decide)⟩

/-- Claim C6: the two login-failure cases — an email with no users row, and an
existing email whose hash check fails — produce identical observable
responses (same status, same message, same HTTP code); a correct credential
returns the success response carrying the matching user identifier. -/
theorem login_failure_indistinguishable (check_hash : String → String → Bool)
    (users : List UserRow) (e1 p1 e2 p2 e3 p3 : String) (u v : UserRow)
    (h1 : users.find? (fun w => w.email == e1) = none)
    (h2 : users.find? (fun w => w.email == e2) = some u)
    (h3 : check_hash u.password_hash p2 = false)
    (h4 : users.find? (fun w => w.email == e3) = some v)
    (h5 : check_hash v.password_hash p3 = true) :
    login_user check_hash users e1 p1 = login_user check_hash users e2 p2 ∧
    (login_user check_hash users e1 p1).status = "error" ∧
    (login_user check_hash users e1 p1).message = "Invalid email or password." ∧
    (login_user check_hash users e1 p1).http_code = 401 ∧
    login_user check_hash users e3 p3 = login_success v ∧
    (login_user check_hash users e3 p3).user_id = some v.user_id := by
  have g1 : login_user check_hash users e1 p1 = invalid_credentials := by
    unfold login_user
    rw [h1]
  have g2 : login_user check_hash users e2 p2 = invalid_credentials := by
    unfold login_user
    rw [h2]
    simp [h3]
  have g3 : login_user check_hash users e3 p3 = login_success v := by
    unfold login_user
    rw [h4]
    simp [h5]
  refine ⟨g1.trans g2.symm, ?_, ?_, ?_, g3, ?_⟩
  · rw [g1]
    rfl
  · rw [g1]
    rfl
  · rw [g1]
    rfl
  · rw [g3]
    rfl

/-- The single registered user of the login witness scenario. -/
def demo_user : UserRow :=
  ⟨1, "Alice", "alice@example.com", "secret", "0123456789", "F"⟩

/-- A concrete stand-in for werkzeug's check_password_hash: the stored hash
must equal the supplied password. -/
def demo_check (stored supplied : String) : Bool := stored == supplied

/-- Witness for `login_failure_indistinguishable` on a one-user table. -/
theorem login_failure_indistinguishable_witness :
    login_user demo_check [demo_user] "bob@example.com" "pw" =
      login_user demo_check [demo_user] "alice@example.com" "wrong" ∧
    (login_user demo_check [demo_user] "bob@example.com" "pw").status = "error" ∧
    (login_user demo_check [demo_user] "bob@example.com" "pw").message =
      "Invalid email or password." ∧
    (login_user demo_check [demo_user] "bob@example.com" "pw").http_code = 401 ∧
    login_user demo_check [demo_user] "alice@example.com" "secret" =
      login_success demo_user ∧
    (login_user demo_check [demo_user] "alice@example.com" "secret").user_id =
      some demo_user.user_id :=
  login_failure_indistinguishable demo_check [demo_user] "bob@example.com" "pw"
    "alice@example.com" "wrong" "alice@example.com" "secret" demo_user demo_user
    (by decide) (by decide) (by decide) (by decide) (by decide)

/-- Claim C10: a feedback submission whose user_id matches no users row (and
whose rating passes the CHECK constraint, so the foreign-key violation is
what results) is rolled back — the feedback table is unchanged — and answered
with HTTP 400 and the fixed message, not the generic 500 response. -/
theorem feedback_fk_violation (users : List UserRow) (feedback : List FeedbackRow)
    (user_id : ℕ) (segment_id : Int) (rating : Option Int) (comment : Option String)
    (hrating : rating_check rating = true)
    (huser : users.any (fun u => u.user_id == user_id) = false) :
    save_feedback users feedback user_id segment_id rating comment =
      (feedback, ⟨"error", some "User or route ID does not exist.", 400, none⟩) ∧
    (save_feedback users feedback user_id segment_id rating comment).2.http_code ≠ 500 := by
  have hins : insert_feedback users feedback user_id segment_id rating comment =
      Except.error (DbError.foreignKeyViolation
        "insert or update on table \"feedback\" violates foreign key constraint \"feedback_user_id_fkey\"") := by
    unfold insert_feedback
    rw [hrating, huser]
    rfl
  have heq : save_feedback users feedback user_id segment_id rating comment =
      (feedback, ⟨"error", some "User or route ID does not exist.", 400, none⟩) := by
    unfold save_feedback
    rw [hins]
  refine ⟨heq, ?_⟩
  rw [heq]
  simp

/-- Witness for `feedback_fk_violation` on an empty users table. -/
theorem feedback_fk_violation_witness :
    save_feedback [] [] 1 7 (some 4) (some "nice") =
      ([], ⟨"error", some "User or route ID does not exist.", 400, none⟩) ∧
    (save_feedback [] [] 1 7 (some 4) (some "nice")).2.http_code ≠ 500 :=
  feedback_fk_violation [] [] 1 7 (some 4) (some "nice") (by decide) (by decide)

/-- Claim C8: every record returned by the bounding-box query lies within
[lat − Δlat, lat + Δlat] × [lon − Δlon, lon + Δlon], where Δlat =
radius·(1/111) and Δlon = radius/(111·coslat) with coslat the computed
cosine of the latitude in radians, and at most 200 records are returned. -/
theorem bounding_box_query (lat lon radius_km coslat : ℚ) (logs : List CrimeRecord)
    (rec : CrimeRecord)
    (hmem : rec ∈ crime_query lat lon radius_km coslat logs) :
    (lat - radius_km * (1 / 111) ≤ rec.latitude ∧
      rec.latitude ≤ lat + radius_km * (1 / 111) ∧
      lon - radius_km / (111 * coslat) ≤ rec.longitude ∧
      rec.longitude ≤ lon + radius_km / (111 * coslat)) ∧
    (crime_query lat lon radius_km coslat logs).length ≤ 200 := by
  constructor
  · simp only [crime_query] at hmem
    have hmem2 := List.mem_of_mem_take hmem
    have hfil := List.of_mem_filter hmem2
    unfold in_bounding_box at hfil
    obtain ⟨ha, hb, hc, hd⟩ := of_decide_eq_true hfil
    rw [← mul_one_div radius_km (111 * coslat)]
    exact ⟨ha, hb, hc, hd⟩
  · simp only [crime_query]
    exact List.length_take_le 200 _

/-- A concrete incident record used by the bounding-box witness. -/
def demo_crime : CrimeRecord := ⟨1 / 2, 1 / 2, 2, true, "Theft"⟩

/-- Witness for `bounding_box_query`: radius 111 km at the origin with
coslat 1 gives the box [−1, 1] × [−1, 1], which contains `demo_crime`. -/
theorem bounding_box_query_witness :
    ((0 : ℚ) - 111 * (1 / 111) ≤ demo_crime.latitude ∧
      demo_crime.latitude ≤ 0 + 111 * (1 / 111) ∧
      (0 : ℚ) - 111 / (111 * 1) ≤ demo_crime.longitude ∧
      demo_crime.longitude ≤ 0 + 111 / (111 * 1)) ∧
    (crime_query 0 0 111 1 [demo_crime]).length ≤ 200 :=
  bounding_box_query 0 0 111 1 [demo_crime] demo_crime (by
    have h : crime_query 0 0 111 1 [demo_crime] = [demo_crime] := by
      norm_num [crime_query, in_bounding_box, demo_crime, List.filter]
    rw [h]
    exact List.mem_singleton.mpr rfl)

/-- A valid registration request for alice@example.com. -/
def req_alice : RegisterRequest :=
  ⟨some "Alice", some "alice@example.com", some "pw1", some "0123456789", some "F"⟩

/-- A second request with the same email but a malformed phone number. -/
def req_bob_bad_phone : RegisterRequest :=
  ⟨some "Bob", some "alice@example.com", some "pw2", some "123", some "M"⟩

/-- Claim C7 counterexample: for this pair of registration requests with the
same email the first succeeds (201), yet the second is answered with the 400
phone-validation failure — not the 409 conflict the claim predicts for every
such pair. -/
theorem duplicate_email_claim_fails :
    (register_user id [] req_alice).2.http_code = 201 ∧
    (register_user id (register_user id [] req_alice).1 req_bob_bad_phone).2 =
      ⟨"error", "Phone number must be exactly 10 digits.", 400, none⟩ ∧
    (register_user id (register_user id [] req_alice).1 req_bob_bad_phone).2.http_code ≠ 409 := by
  decide

/-- Helper: on a request passing both validation guards, the handler reduces
to the INSERT outcome — 409 on a duplicate email, 201 with the appended row
otherwise. -/
theorem register_user_eq_of_valid (hash : String → String) (users : List UserRow)
    (req : RegisterRequest) (hval : valid_register_request req = true) :
    register_user hash users req =
      if users.any (fun u => u.email == req.email.getD "") then
        (users, ⟨"error", "Email already registered.", 409, none⟩)
      else
        (users ++ [⟨users.length + 1, req.name.getD "", req.email.getD "",
          hash (req.password.getD ""), req.phone.getD "", req.gender.getD ""⟩],
          ⟨"success", "User registered successfully!", 201, some (users.length + 1)⟩) := by
  unfold valid_register_request at hval
  rw [Bool.and_eq_true] at hval
  obtain ⟨hA, hB⟩ := hval
  simp only [register_user, insert_user]
  rw [hA, hB]
  by_cases hdup : (users.any fun u => u.email == req.email.getD "") = true
  · simp [hdup]
    decide
  · simp [hdup]

/-- Helper: a registration answered 201 leaves the table holding a row with
the request's email. -/
theorem register_created_email (hash : String → String) (users : List UserRow)
    (req : RegisterRequest)
    (h : (register_user hash users req).2.http_code = 201) :
    (register_user hash users req).1.any (fun u => u.email == req.email.getD "") = true := by
  by_cases hval : valid_register_request req = true
  · rw [register_user_eq_of_valid hash users req hval] at h ⊢
    by_cases hdup : users.any (fun u => u.email == req.email.getD "") = true
    · rw [if_pos hdup] at h
      simp at h
    · rw [if_neg hdup] at h ⊢
      simp [List.any_append]
  · exfalso
    cases hA : (truthy req.name && truthy req.email && truthy req.password &&
        truthy req.phone && truthy req.gender) with
    | false =>
      simp only [register_user] at h
      rw [hA] at h
      simp at h
    | true =>
      cases hB : ((req.phone.getD "").length == 10 &&
          (req.phone.getD "").toList.all Char.isDigit) with
      | false =>
        simp only [register_user] at h
        rw [hA, hB] at h
        simp at h
      | true =>
        refine hval ?_
        unfold valid_register_request
        rw [hA, hB]
        rfl

/-- Helper: a valid request whose email is already present is answered with
the 409 conflict and leaves the table unchanged. -/
theorem register_duplicate_conflict (hash : String → String) (users : List UserRow)
    (req : RegisterRequest)
    (hval : valid_register_request req = true)
    (hdup : users.any (fun u => u.email == req.email.getD "") = true) :
    register_user hash users req =
      (users, ⟨"error", "Email already registered.", 409, none⟩) := by
  rw [register_user_eq_of_valid hash users req hval, if_pos hdup]

/-- Claim C7 (amended): for every pair of registration requests with the same
email in which the second passes field validation, if the first succeeds then
the second is answered with the distinct "already registered" conflict (HTTP
409), not a generic error, and the table is left as the first run left it. -/
theorem duplicate_email_conflict (hash : String → String) (users : List UserRow)
    (req1 req2 : RegisterRequest)
    (hsame : req2.email = req1.email)
    (hvalid : valid_register_request req2 = true)
    (hfirst : (register_user hash users req1).2.http_code = 201) :
    register_user hash (register_user hash users req1).1 req2 =
      ((register_user hash users req1).1,
        ⟨"error", "Email already registered.", 409, none⟩) := by
  apply register_duplicate_conflict hash _ req2 hvalid
  have h1 := register_created_email hash users req1 hfirst
  rw [hsame]
  exact h1

/-- A second request with the same email that passes field validation. -/
def req_bob_same_email : RegisterRequest :=
  ⟨some "Bob", some "alice@example.com", some "pw2", some "9876543210", some "M"⟩

/-- Witness for `duplicate_email_conflict` on the concrete pair. -/
theorem duplicate_email_conflict_witness :
    register_user id (register_user id [] req_alice).1 req_bob_same_email =
      ((register_user id [] req_alice).1,
        ⟨"error", "Email already registered.", 409, none⟩) :=
  duplicate_email_conflict id [] req_alice req_bob_same_email
    (by decide) (by decide) (by decide)
